import Mathlib

/-!
Verification of the Authentication & Session Core of the deep_research backend.

The Python sources under src/auth are shallowly embedded: the remote key-value
store (Upstash Redis) is a finite association list from key strings to values
with optional TTLs, the relational user table is a list of user records, and
each handler or helper is translated into an executable Lean function that
threads this state explicitly.  Time is modelled as integer seconds, keyed
hashing (HMAC-SHA256) and password verification (Argon2id) as explicit function
parameters, and random token generation as explicit string parameters.
-/

/-- One stored value in the key-value store: the raw string payload plus an
optional time-to-live in seconds (none = no expiry set). -/
structure KVEntry where
  value : String
  ttl : Option Nat
deriving Repr, DecidableEq

/-- The key-value store: an association list with unique keys in all states
reachable by the code; operations use first-match semantics. -/
abbrev KV := List (String × KVEntry)

/-- Redis GET: value of the key, or none when absent. -/
def kvGet : KV → String → Option String
  | [], _ => none
  | (k', e) :: rest, k => if k' = k then some e.value else kvGet rest k

/-- TTL currently attached to a key (none when absent or persistent). -/
def kvTtl : KV → String → Option Nat
  | [], _ => none
  | (k', e) :: rest, k => if k' = k then e.ttl else kvTtl rest k

/-- Redis SET keeping the existing TTL (the write performed by INCR on an
existing key); creating a key attaches no TTL. -/
def kvSetKeepTtl : KV → String → String → KV
  | [], k, v => [(k, ⟨v, none⟩)]
  | (k', e) :: rest, k, v =>
    if k' = k then (k, ⟨v, e.ttl⟩) :: rest else (k', e) :: kvSetKeepTtl rest k v

/-- Redis SETEX: store a value with a fresh TTL. -/
def kvSetex : KV → String → Nat → String → KV
  | [], k, t, v => [(k, ⟨v, some t⟩)]
  | (k', e) :: rest, k, t, v =>
    if k' = k then (k, ⟨v, some t⟩) :: rest else (k', e) :: kvSetex rest k t v

/-- Redis EXPIRE: returns 1 and refreshes the TTL when the key exists,
returns 0 and leaves the store unchanged when it does not. -/
def kvExpire : KV → String → Nat → Int × KV
  | [], _, _ => (0, [])
  | (k', e) :: rest, k, t =>
    if k' = k then (1, (k, ⟨e.value, some t⟩) :: rest)
    else
      let r := kvExpire rest k t
      (r.1, (k', e) :: r.2)

/-- Redis DEL: remove the key; deleting an absent key is a no-op. -/
def kvDelete (kv : KV) (k : String) : KV :=
  kv.filter (fun e => e.1 != k)

/-- Parse a non-empty all-digit character list as a natural number. -/
def parseNatDigits (l : List Char) : Option Nat :=
  if l.isEmpty then none
  else if l.all (fun c => c.isDigit) then
    some (l.foldl (fun n c => n * 10 + (c.toNat - 48)) 0)
  else none

/-- Parse an optionally signed decimal integer. -/
def parseDecInt (l : List Char) : Option Int :=
  match l with
  | '-' :: rest => (parseNatDigits rest).map (fun n => -(n : Int))
  | _ => (parseNatDigits l).map (fun n => (n : Int))

/-- Redis INCR: parse the stored decimal value (0 when the key is absent),
add one, and store the result keeping the existing TTL.  On the counter keys
used by this code the stored value is always a decimal integer written by a
previous INCR, so the non-integer error branch of real Redis never arises. -/
def kvIncr (kv : KV) (k : String) : Int × KV :=
  let cur := ((kvGet kv k).bind (fun s => parseDecInt s.data)).getD 0
  (cur + 1, kvSetKeepTtl kv k (toString (cur + 1)))

-- Basic frame lemmas about the store primitives.

theorem kvGet_setKeepTtl_self (kv : KV) (k v : String) :
    kvGet (kvSetKeepTtl kv k v) k = some v := by
  induction kv with
  | nil => simp [kvSetKeepTtl, kvGet]
  | cons hd tl ih =>
    by_cases h : hd.1 = k
    · simp [kvSetKeepTtl, kvGet, h]
    · simp [kvSetKeepTtl, kvGet, h, ih]

theorem kvTtl_setKeepTtl (kv : KV) (k v k' : String) :
    kvTtl (kvSetKeepTtl kv k v) k' = kvTtl kv k' := by
  induction kv with
  | nil =>
    by_cases h : k = k' <;> simp [kvSetKeepTtl, kvTtl, h]
  | cons hd tl ih =>
    obtain ⟨a, e⟩ := hd
    by_cases h : a = k
    · subst h
      simp [kvSetKeepTtl, kvTtl]
    · simp [kvSetKeepTtl, kvTtl, h, ih]

theorem kvGet_expire (kv : KV) (k k' : String) (t : Nat) :
    kvGet (kvExpire kv k t).2 k' = kvGet kv k' := by
  induction kv with
  | nil => simp [kvExpire]
  | cons hd tl ih =>
    obtain ⟨a, e⟩ := hd
    by_cases h : a = k
    · subst h
      simp [kvExpire, kvGet]
    · simp [kvExpire, kvGet, h, ih]

theorem kvExpire_fst (kv : KV) (k : String) (t : Nat) :
    (kvExpire kv k t).1 = if (kvGet kv k).isSome then 1 else 0 := by
  induction kv with
  | nil => simp [kvExpire, kvGet]
  | cons hd tl ih =>
    by_cases h : hd.1 = k
    · simp [kvExpire, kvGet, h]
    · simp [kvExpire, kvGet, h, ih]

theorem kvTtl_expire_present (kv : KV) (k : String) (t : Nat)
    (h : (kvGet kv k).isSome) :
    kvTtl (kvExpire kv k t).2 k = some t := by
  induction kv with
  | nil => simp [kvGet] at h
  | cons hd tl ih =>
    by_cases hk : hd.1 = k
    · simp [kvExpire, kvTtl, hk]
    · simp [kvGet, hk] at h
      simp [kvExpire, kvTtl, hk, ih h]

theorem kvTtl_expire_absent (kv : KV) (k : String) (t : Nat)
    (h : kvGet kv k = none) :
    kvTtl (kvExpire kv k t).2 k = kvTtl kv k := by
  induction kv with
  | nil => simp [kvExpire]
  | cons hd tl ih =>
    by_cases hk : hd.1 = k
    · simp [kvGet, hk] at h
    · simp [kvGet, hk] at h
      simp [kvExpire, kvTtl, hk, ih h]

theorem kvGet_delete_self (kv : KV) (k : String) :
    kvGet (kvDelete kv k) k = none := by
  induction kv with
  | nil => simp [kvDelete, kvGet]
  | cons hd tl ih =>
    obtain ⟨a, e⟩ := hd
    by_cases h : a = k
    · subst h
      simpa [kvDelete, List.filter_cons] using ih
    · simp only [kvDelete, List.filter_cons] at ih ⊢
      simp [h, kvGet, ih]

theorem kvDelete_absent (kv : KV) (k : String)
    (h : kvGet kv k = none) : kvDelete kv k = kv := by
  induction kv with
  | nil => simp [kvDelete]
  | cons hd tl ih =>
    obtain ⟨a, e⟩ := hd
    by_cases hk : a = k
    · simp [kvGet, hk] at h
    · simp [kvGet, hk] at h
      simp only [kvDelete, List.filter_cons] at ih ⊢
      simp [hk, ih h]

/-!
## Rate Limiter / Lockout Tracker (src/auth/rate_limit.py)

Each method of the RateLimiter class is translated as a function on the pure
store state.  Thresholds are the module constants of rate_limit.py.
-/

def LOGIN_ATTEMPTS_PER_MINUTE : Int := 5

def LOGIN_ATTEMPTS_PER_5_MIN : Int := 10

def FAILED_ATTEMPTS_LOCKOUT : Int := 10

def LOCKOUT_DURATION_MINUTES : Int := 15

namespace RateLimiter

/-- check_ip_rate_limit: INCR the per-IP one-minute counter, set a 60s expiry
only when this increment created the key, and report whether the count exceeds
the per-minute threshold. -/
def check_ip_rate_limit (kv : KV) (ip : String) : Bool × KV :=
  let key := "ratelimit:ip:" ++ ip ++ ":1m"
  let r := kvIncr kv key
  let kv1 := if r.1 = 1 then (kvExpire r.2 key 60).2 else r.2
  (r.1 > LOGIN_ATTEMPTS_PER_MINUTE, kv1)

/-- check_email_rate_limit: INCR the per-email five-minute counter, set a 300s
expiry only when this increment created the key, and report whether the count
exceeds the five-minute threshold. -/
def check_email_rate_limit (kv : KV) (email : String) : Bool × KV :=
  let key := "ratelimit:email:" ++ email ++ ":5m"
  let r := kvIncr kv key
  let kv1 := if r.1 = 1 then (kvExpire r.2 key 300).2 else r.2
  (r.1 > LOGIN_ATTEMPTS_PER_5_MIN, kv1)

/-- increment_failed_attempts: INCR the per-email failure counter and set its
3600s expiry unconditionally, on every call. -/
def increment_failed_attempts (kv : KV) (email : String) : Int × KV :=
  let key := "failed_attempts:" ++ email
  let r := kvIncr kv key
  let kv1 := (kvExpire r.2 key 3600).2
  (r.1, kv1)

/-- reset_failed_attempts: delete the per-email failure counter. -/
def reset_failed_attempts (kv : KV) (email : String) : KV :=
  kvDelete kv ("failed_attempts:" ++ email)

/-- Rendering of the isoformat timestamp (utcnow + 15 minutes) stored as the
value of the KV lockout flag; modelled as the decimal epoch second.  The code
only ever uses this value through Python truthiness, never parses it back. -/
def lockedUntilIso (now : Int) : String :=
  toString (now + LOCKOUT_DURATION_MINUTES * 60)

/-- RateLimiter.lock_account: SETEX the per-user lockout flag with a
15-minute TTL. -/
def lock_account (kv : KV) (user_id : Int) (now : Int) : KV :=
  kvSetex kv ("account_locked:" ++ toString user_id)
    (LOCKOUT_DURATION_MINUTES * 60).toNat (lockedUntilIso now)

/-- is_account_locked: GET the per-user lockout flag and apply Python
truthiness to the result (absent or empty string is false). -/
def is_account_locked (kv : KV) (user_id : Int) : Bool :=
  match kvGet kv ("account_locked:" ++ toString user_id) with
  | none => false
  | some s => !s.isEmpty

end RateLimiter

/-!
## Credential store queries (src/auth/queries.py)

The users table is a list of records; lookups use the case-insensitive email
match of the SQL (LOWER(email) = LOWER($1)) and first-row semantics.
-/

/-- A row of the users table. -/
structure User where
  id : Int
  email : String
  password_hash : String
  is_active : Bool
  failed_login_attempts : Int
  locked_until : Option Int
deriving Repr, DecidableEq

abbrev Db := List User

/-- SQL LOWER over the character content of a string. -/
def strToLower (s : String) : String := String.mk (s.data.map Char.toLower)

namespace queries

/-- get_user_by_email: first user whose lowercased email matches
(LOWER(email) = LOWER($1)). -/
def get_user_by_email (db : Db) (email : String) : Option User :=
  db.find? (fun u => strToLower u.email == strToLower email)

/-- get_user_by_id: first user with the given id. -/
def get_user_by_id (db : Db) (user_id : Int) : Option User :=
  db.find? (fun u => u.id == user_id)

/-- lock_account: UPDATE users SET locked_until = $2 WHERE id = $1. -/
def lock_account (db : Db) (user_id : Int) (locked_until : Int) : Db :=
  db.map (fun u => if u.id = user_id then { u with locked_until := some locked_until } else u)

/-- reset_failed_login_attempts: UPDATE users SET failed_login_attempts = 0,
locked_until = NULL WHERE id = $1. -/
def reset_failed_login_attempts (db : Db) (user_id : Int) : Db :=
  db.map (fun u =>
    if u.id = user_id then { u with failed_login_attempts := 0, locked_until := none } else u)

end queries

/-!
## Session Manager (src/auth/sessions.py) and auth dependency
(src/auth/dependencies.py)

The session payload is the exact JSON string written by create_session
(json.dumps of a dict with keys user_id and created_at, in that order).
sessionParse models json.loads restricted to that payload shape: any string
that does not have this shape is treated as malformed (none), matching the
fail-closed handling of bad session data.
-/

def SESSION_TTL_DEFAULT : Nat := 86400

/-- Decoded session payload: the user id and creation timestamp. -/
structure SessionData where
  user_id : Int
  created_at : String
deriving Repr, DecidableEq

/-- The JSON text produced by json.dumps for the session dict. -/
def sessionJson (user_id : Int) (created_at : String) : String :=
  "\x7b\"user_id\": " ++ toString user_id ++ ", \"created_at\": \"" ++ created_at ++ "\"\x7d"

/-- Consume an expected literal from the front of the character stream. -/
def eatLit : List Char → List Char → Option (List Char)
  | [], l => some l
  | _ :: _, [] => none
  | p :: ps, c :: cs => if c = p then eatLit ps cs else none

/-- Split the stream at the first occurrence of the stop character, which is
left on the remainder. -/
def takeUntil (stop : Char) : List Char → List Char × List Char
  | [] => ([], [])
  | c :: rest =>
    if c = stop then ([], c :: rest)
    else
      let r := takeUntil stop rest
      (c :: r.1, r.2)

/-- Decode a session payload string (json.loads restricted to the shape
written by create_session). -/
def sessionParse (s : String) : Option SessionData :=
  match eatLit "\x7b\"user_id\": ".data s.data with
  | none => none
  | some l1 =>
    let num := takeUntil ',' l1
    match parseDecInt num.1 with
    | none => none
    | some uid =>
      match eatLit ", \"created_at\": \"".data num.2 with
      | none => none
      | some l2 =>
        let created := takeUntil '"' l2
        if created.2 = "\"\x7d".data then some ⟨uid, String.mk created.1⟩ else none

namespace UpstashSessionManager

/-- create_session: SETEX the JSON payload under session:{id} with the
configured TTL; the random 256-bit hex identifier and the creation timestamp
are explicit parameters of the model. -/
def create_session (session_ttl : Nat) (kv : KV) (session_id : String)
    (user_id : Int) (created_at : String) : String × KV :=
  (session_id, kvSetex kv ("session:" ++ session_id) session_ttl (sessionJson user_id created_at))

/-- get_session: GET session:{id}; an absent key, an empty payload, or a
payload that fails JSON decoding is reported as absent (none). -/
def get_session (kv : KV) (session_id : String) : Option SessionData :=
  match kvGet kv ("session:" ++ session_id) with
  | none => none
  | some s => if s.isEmpty then none else sessionParse s

/-- delete_session: DEL session:{id}; removing an absent key is a no-op. -/
def delete_session (kv : KV) (session_id : String) : KV :=
  kvDelete kv ("session:" ++ session_id)

/-- refresh_session: EXPIRE session:{id} to the full configured lifetime;
the boolean is the truthiness of the EXPIRE reply (1 when the key existed,
0 when it did not). -/
def refresh_session (session_ttl : Nat) (kv : KV) (session_id : String) : Bool × KV :=
  let r := kvExpire kv ("session:" ++ session_id) session_ttl
  (r.1 != 0, r.2)

end UpstashSessionManager

/-- The user object produced by the get_current_user dependency. -/
structure CurrentUser where
  user_id : Int
  email : String
deriving Repr, DecidableEq

/-- get_current_user (src/auth/dependencies.py): resolve the session cookie
to an active user, refreshing the session TTL on the way; each failing check
raises the HTTP error of the source.  A cookie that is missing or empty is
falsy in Python, as is a decoded user_id of 0. -/
def get_current_user (kv : KV) (db : Db) (session_id : Option String) :
    (Except (Nat × String) CurrentUser) × KV :=
  match session_id with
  | none => (.error (401, "Not authenticated"), kv)
  | some sid =>
    if sid.isEmpty then (.error (401, "Not authenticated"), kv)
    else
      match UpstashSessionManager.get_session kv sid with
      | none => (.error (401, "Session expired"), kv)
      | some data =>
        if data.user_id = 0 then (.error (401, "Invalid session"), kv)
        else
          let kv1 := (UpstashSessionManager.refresh_session SESSION_TTL_DEFAULT kv sid).2
          match queries.get_user_by_id db data.user_id with
          | none => (.error (401, "User not found"), kv1)
          | some u =>
            if !u.is_active then (.error (403, "User account is inactive"), kv1)
            else (.ok ⟨u.id, u.email⟩, kv1)

/-- Response of the logout endpoint: either the HTTP error raised by the
get_current_user dependency, or the success payload together with the names
of the cookies the response deletes. -/
inductive LogoutResp
  | http (status : Nat) (detail : String)
  | ok (message : String) (cleared_cookies : List String)
deriving Repr, DecidableEq

/-- logout (src/auth/router.py): FastAPI first resolves the get_current_user
dependency (failing the request on its HTTP error); the handler then deletes
the session when a session_id cookie is present and returns success with both
cookies cleared. -/
def logout (kv : KV) (db : Db) (session_cookie : Option String) : LogoutResp × KV :=
  match get_current_user kv db session_cookie with
  | (.error sd, kv1) => (.http sd.1 sd.2, kv1)
  | (.ok _u, kv1) =>
    let kv2 :=
      match session_cookie with
      | none => kv1
      | some sid => if sid.isEmpty then kv1 else UpstashSessionManager.delete_session kv1 sid
    (.ok "Logged out successfully" ["session_id", "csrf_token"], kv2)

-- TTL behaviour of an INCR followed by EXPIRE / no EXPIRE.

theorem kvTtl_incr_expire (kv : KV) (key : String) (w : Nat) :
    kvTtl (kvExpire (kvIncr kv key).2 key w).2 key = some w := by
  apply kvTtl_expire_present
  simp [kvIncr, kvGet_setKeepTtl_self]

theorem kvTtl_incr_noexpire (kv : KV) (key : String) :
    kvTtl (kvIncr kv key).2 key = kvTtl kv key := by
  simp [kvIncr, kvTtl_setKeepTtl]

/-- C4 (amended): the IP and email rate-limit counters set their expiry (60s
and 300s) exactly when the post-increment count equals 1 and otherwise leave
the TTL untouched, but the failed_attempts counter sets its 3600s expiry on
every increment, so its window is reset by each hit. -/
theorem counter_expiry_behavior (kv : KV) (ip email : String) :
    (kvTtl (RateLimiter.check_ip_rate_limit kv ip).2 ("ratelimit:ip:" ++ ip ++ ":1m")
        = if (kvIncr kv ("ratelimit:ip:" ++ ip ++ ":1m")).1 = 1 then some 60
          else kvTtl kv ("ratelimit:ip:" ++ ip ++ ":1m"))
    ∧ (kvTtl (RateLimiter.check_email_rate_limit kv email).2 ("ratelimit:email:" ++ email ++ ":5m")
        = if (kvIncr kv ("ratelimit:email:" ++ email ++ ":5m")).1 = 1 then some 300
          else kvTtl kv ("ratelimit:email:" ++ email ++ ":5m"))
    ∧ kvTtl (RateLimiter.increment_failed_attempts kv email).2 ("failed_attempts:" ++ email)
        = some 3600 := by
  refine ⟨?_, ?_, ?_⟩
  · simp only [RateLimiter.check_ip_rate_limit]
    by_cases h : (kvIncr kv ("ratelimit:ip:" ++ ip ++ ":1m")).1 = 1
    · simp [h, kvTtl_incr_expire]
    · simp [h, kvTtl_incr_noexpire]
  · simp only [RateLimiter.check_email_rate_limit]
    by_cases h : (kvIncr kv ("ratelimit:email:" ++ email ++ ":5m")).1 = 1
    · simp [h, kvTtl_incr_expire]
    · simp [h, kvTtl_incr_noexpire]
  · simp only [RateLimiter.increment_failed_attempts]
    exact kvTtl_incr_expire kv ("failed_attempts:" ++ email) 3600

/-- A failure counter that already holds 1 with 120s left in its window. -/
def kvFAcex : KV := [("failed_attempts:a@b.com", ⟨"1", some 120⟩)]

/-- C4 (counterexample): on the failed_attempts counter the post-increment
count is 2, yet the increment still sets the 3600s expiry, resetting the
120s that remained of the window — refuting the claim that every increment
sets the expiry only when the post-increment count equals 1. -/
theorem failed_attempts_window_reset_cex :
    (RateLimiter.increment_failed_attempts kvFAcex "a@b.com").1 = 2
    ∧ kvTtl kvFAcex "failed_attempts:a@b.com" = some 120
    ∧ kvTtl (RateLimiter.increment_failed_attempts kvFAcex "a@b.com").2
        "failed_attempts:a@b.com" = some 3600 := by
  decide

/-- C7: refreshing a session changes no stored payload — get_session returns
the identical result before and after — the refresh reports false exactly
when the key no longer exists (a normal return value, not an error), and when
the key exists its TTL is extended to the full configured lifetime. -/
theorem refresh_session_frame_thm (ttl : Nat) (kv : KV) (sid : String) :
    UpstashSessionManager.get_session (UpstashSessionManager.refresh_session ttl kv sid).2 sid
      = UpstashSessionManager.get_session kv sid
    ∧ ((UpstashSessionManager.refresh_session ttl kv sid).1 = false
        ↔ kvGet kv ("session:" ++ sid) = none)
    ∧ kvTtl (UpstashSessionManager.refresh_session ttl kv sid).2 ("session:" ++ sid)
      = (if (kvGet kv ("session:" ++ sid)).isSome then some ttl
         else kvTtl kv ("session:" ++ sid)) := by
  refine ⟨?_, ?_, ?_⟩
  · simp [UpstashSessionManager.get_session, UpstashSessionManager.refresh_session, kvGet_expire]
  · cases hkey : kvGet kv ("session:" ++ sid) with
    | none => simp [UpstashSessionManager.refresh_session, kvExpire_fst, hkey]
    | some v => simp [UpstashSessionManager.refresh_session, kvExpire_fst, hkey]
  · cases hkey : kvGet kv ("session:" ++ sid) with
    | none =>
      simp [UpstashSessionManager.refresh_session, kvTtl_expire_absent kv _ ttl hkey, hkey]
    | some v =>
      have hs : (kvGet kv ("session:" ++ sid)).isSome := by simp [hkey]
      simp [UpstashSessionManager.refresh_session, kvTtl_expire_present kv _ ttl hs, hkey]

/-- C5 (counterexample): a logout request carrying no session cookie is
rejected by the get_current_user dependency with 401 Not authenticated — it
does not return success with cleared cookies. -/
theorem logout_without_cookie_401_cex :
    logout [] [] none = (LogoutResp.http 401 "Not authenticated", []) := by
  decide

/-- C5 (amended): deleteSession on an absent session id is a no-op that does
not error; but a logout request with no session cookie is rejected 401 by the
authentication dependency rather than returning success; an authenticated
logout deletes the session (after the dependency refreshed it) and returns
success with both cookies cleared, leaving the session absent. -/
theorem logout_delete_session_amended
    (kva kv : KV) (db : Db) (sida sid : String) (uid : Int) (created : String) (u : User)
    (habsent : kvGet kva ("session:" ++ sida) = none)
    (hsid : sid.isEmpty = false)
    (hsess : UpstashSessionManager.get_session kv sid = some ⟨uid, created⟩)
    (huid : ¬ uid = 0)
    (huser : queries.get_user_by_id db uid = some u)
    (hact : u.is_active = true) :
    UpstashSessionManager.delete_session kva sida = kva
    ∧ logout kv db none = (LogoutResp.http 401 "Not authenticated", kv)
    ∧ logout kv db (some sid)
        = (LogoutResp.ok "Logged out successfully" ["session_id", "csrf_token"],
           UpstashSessionManager.delete_session
             (UpstashSessionManager.refresh_session SESSION_TTL_DEFAULT kv sid).2 sid)
    ∧ kvGet (UpstashSessionManager.delete_session
             (UpstashSessionManager.refresh_session SESSION_TTL_DEFAULT kv sid).2 sid)
        ("session:" ++ sid) = none := by
  refine ⟨?_, ?_, ?_, ?_⟩
  · exact kvDelete_absent kva ("session:" ++ sida) habsent
  · rfl
  · simp [logout, get_current_user, hsid, hsess, huid, huser, hact]
  · exact kvGet_delete_self _ ("session:" ++ sid)

/-- A store holding one well-formed session and a user table with the
matching active user, used to instantiate the logout theorem. -/
def kvLogoutW : KV := [("session:s1", ⟨sessionJson 1 "2024-01-01T00:00:00", some 100⟩)]

def dbLogoutW : Db := [⟨1, "a@b.com", "h1", true, 0, none⟩]

/-- Witness for the amended C5 theorem at a concrete store and user table. -/
theorem logout_delete_session_amended_witness :
    UpstashSessionManager.delete_session [] "zz" = []
    ∧ logout kvLogoutW dbLogoutW none = (LogoutResp.http 401 "Not authenticated", kvLogoutW)
    ∧ logout kvLogoutW dbLogoutW (some "s1")
        = (LogoutResp.ok "Logged out successfully" ["session_id", "csrf_token"],
           UpstashSessionManager.delete_session
             (UpstashSessionManager.refresh_session SESSION_TTL_DEFAULT kvLogoutW "s1").2 "s1")
    ∧ kvGet (UpstashSessionManager.delete_session
             (UpstashSessionManager.refresh_session SESSION_TTL_DEFAULT kvLogoutW "s1").2 "s1")
        ("session:s1") = none :=
  logout_delete_session_amended [] kvLogoutW dbLogoutW "zz" "s1" 1 "2024-01-01T00:00:00"
    ⟨1, "a@b.com", "h1", true, 0, none⟩
    (by decide) (by decide) (by decide) (by decide) (by decide) (by decide)

/-!
## CSRF Token Service (src/auth/csrf.py)

The keyed hash (hmac.new(secret, message, sha256).hexdigest()) is an explicit
function parameter H of the model; hmac.compare_digest is a constant-time
comparison whose result equals string equality.
-/

/-- generate_csrf_token: nonce.signature with signature = H(secret,
session_id:nonce); the random 32-hex-char nonce is an explicit parameter. -/
def generate_csrf_token (H : String → String → String)
    (session_id secret nonce : String) : String :=
  nonce ++ "." ++ H secret (session_id ++ ":" ++ nonce)

/-- token.split(".", 1): split at the first dot; none when no dot occurs, in
which case the tuple unpacking of the source raises ValueError (caught and
turned into False). -/
def splitFirstDot : List Char → Option (List Char × List Char)
  | [] => none
  | c :: rest =>
    if c = '.' then some ([], rest)
    else
      match splitFirstDot rest with
      | none => none
      | some r => some (c :: r.1, r.2)

/-- verify_csrf_token: split the token at the first dot, recompute the
expected signature for this session id and secret, and compare; malformed
tokens yield false rather than an error. -/
def verify_csrf_token (H : String → String → String)
    (token session_id secret : String) : Bool :=
  match splitFirstDot token.data with
  | none => false
  | some ns =>
    let nonce := String.mk ns.1
    let signature := String.mk ns.2
    let expected := H secret (session_id ++ ":" ++ nonce)
    signature == expected

/-!
## Login handler (src/auth/router.py)

The login endpoint's first action after reading the client IP is
rate_limiter = await get_rate_limiter(redis).  get_rate_limiter is declared
with def (not async def), so the awaited expression is a plain RateLimiter
object and the await raises TypeError.  The model makes the awaitability of
the awaited value explicit and translates the remainder of the handler
(login_checks) faithfully so that both the actual and the intended behaviour
are visible.
-/

/-- A Python exception relevant to the login flow. -/
inductive PyExc
  | typeError (msg : String)
deriving Repr, DecidableEq

def awaitTypeErrorMsg : String :=
  "object RateLimiter cannot be used in await expression"

/-- The RateLimiter object constructed by get_rate_limiter: a stateless
wrapper around the Redis client reference. -/
structure RateLimiterObj where
  redis : Unit
deriving Repr, DecidableEq

/-- get_rate_limiter: a plain synchronous factory (declared def, not async
def) returning a RateLimiter instance. -/
def get_rate_limiter (redis : Unit) : RateLimiterObj := ⟨redis⟩

/-- get_rate_limiter is not an async def: calling it returns a RateLimiter
object, not a coroutine. -/
def get_rate_limiter_is_async : Bool := false

/-- Python semantics of the await expression: awaiting a coroutine yields its
value; awaiting a plain non-awaitable object raises TypeError. -/
def pyAwait (isAwaitable : Bool) (v : α) : Except PyExc α :=
  if isAwaitable then .ok v else .error (.typeError awaitTypeErrorMsg)

/-- Combined mutable state of the login flow: the KV store and the users
table. -/
structure AuthSt where
  kv : KV
  db : Db
deriving Repr, DecidableEq

/-- The environment of one login request: the Argon2id verification oracle,
the keyed hash, the CSRF secret, and the random/clock values drawn during the
request. -/
structure LoginEnv where
  pverify : String → String → Bool
  hmac : String → String → String
  csrf_secret : String
  fresh_sid : String
  nonce : String
  created_at : String
  session_ttl : Nat
  now : Int

/-- Outcome of the login endpoint: an HTTPException, the success response
(whose session and CSRF cookies carry the returned ids), or an uncaught
Python exception (surfaced by the app-level generic handler as a 500). -/
inductive LoginResp
  | http (status : Nat) (detail : String)
  | success (user_id : Int) (email session_id csrf_token : String)
  | pyError (msg : String)
deriving Repr, DecidableEq

/-- user.get("locked_until") truthiness followed by the comparison with the
current wall clock. -/
def lockedUntilActive (locked_until : Option Int) (now : Int) : Bool :=
  match locked_until with
  | none => false
  | some t => t > now

/-- Lines 113-201 of the login handler: the check suite that runs once the
rate limiter value is available — IP window, email window, user lookup, KV
lockout flag, durable locked_until, active flag, password verification with
failure counting and the threshold-10 dual lockout write, then the success
path (reset counters, create session, mint CSRF token). -/
def login_checks (env : LoginEnv) (st : AuthSt)
    (email password client_ip : String) : LoginResp × AuthSt :=
  let ipr := RateLimiter.check_ip_rate_limit st.kv client_ip
  if ipr.1 then (.http 429 "Too many login attempts from this IP", { st with kv := ipr.2 })
  else
    let emr := RateLimiter.check_email_rate_limit ipr.2 email
    if emr.1 then (.http 429 "Too many login attempts for this email", { st with kv := emr.2 })
    else
      match queries.get_user_by_email st.db email with
      | none => (.http 401 "Invalid email or password", { st with kv := emr.2 })
      | some user =>
        if RateLimiter.is_account_locked emr.2 user.id then
          (.http 403 "Account locked due to too many failed attempts", { st with kv := emr.2 })
        else if lockedUntilActive user.locked_until env.now then
          (.http 403 "Account locked", { st with kv := emr.2 })
        else if !user.is_active then
          (.http 403 "User account is inactive", { st with kv := emr.2 })
        else if !(env.pverify password user.password_hash) then
          let far := RateLimiter.increment_failed_attempts emr.2 email
          if far.1 ≥ 10 then
            let db1 := queries.lock_account st.db user.id (env.now + 15 * 60)
            let kv1 := RateLimiter.lock_account far.2 user.id env.now
            (.http 403 "Account locked due to too many failed attempts", ⟨kv1, db1⟩)
          else (.http 401 "Invalid email or password", { st with kv := far.2 })
        else
          let kv1 := RateLimiter.reset_failed_attempts emr.2 email
          let db1 := queries.reset_failed_login_attempts st.db user.id
          let cs := UpstashSessionManager.create_session env.session_ttl kv1
            env.fresh_sid user.id env.created_at
          let csrf := generate_csrf_token env.hmac cs.1 env.csrf_secret env.nonce
          (.success user.id user.email cs.1 csrf, ⟨cs.2, db1⟩)

/-- The login endpoint as executed: rate_limiter = await get_rate_limiter(
redis) runs first; only if that await succeeded would the check suite run. -/
def login (env : LoginEnv) (st : AuthSt)
    (email password client_ip : String) : LoginResp × AuthSt :=
  match pyAwait get_rate_limiter_is_async (get_rate_limiter ()) with
  | .error (.typeError m) => (.pyError m, st)
  | .ok _rate_limiter => login_checks env st email password client_ip

/-- C2: the login handler awaits the value of get_rate_limiter, which is a
synchronous function returning a RateLimiter object; awaiting that
non-awaitable raises TypeError before any rate-limit, lockout or credential
check executes (the state is returned untouched), so login never reaches its
success branch. -/
theorem login_awaits_sync_rate_limiter (env : LoginEnv) (st : AuthSt)
    (email password client_ip : String) :
    get_rate_limiter_is_async = false
    ∧ login env st email password client_ip = (LoginResp.pyError awaitTypeErrorMsg, st)
    ∧ ∀ uid em sid tok,
        (login env st email password client_ip).1 ≠ LoginResp.success uid em sid tok := by
  refine ⟨rfl, rfl, ?_⟩
  intro uid em sid tok h
  simp [login, pyAwait, get_rate_limiter_is_async, get_rate_limiter] at h

/-- Environment used to evaluate the login endpoint at concrete inputs:
the password oracle rejects every password (as for a wrong password) and the
remaining fields are arbitrary concrete values. -/
def envLoginCex : LoginEnv :=
  ⟨fun _ _ => false, fun _ _ => "", "sec", "sid1", "0123456789abcdef0123456789abcdef",
    "2024-01-01T00:00:00", 86400, 1700000000⟩

def userLoginCex : User := ⟨1, "user@example.com", "argon2hash", true, 0, none⟩

def stLoginCex : AuthSt := ⟨[], [userLoginCex]⟩

/-- C1 (code bug): at a concrete well-formed login request the endpoint does
not perform its documented check sequence at all — it raises TypeError at
the await of get_rate_limiter, leaving the state untouched, instead of
returning one of the documented 429/403/401/200 responses. -/
theorem login_typeerror_at_concrete_input :
    login envLoginCex stLoginCex "user@example.com" "correcthorse" "1.2.3.4"
      = (LoginResp.pyError awaitTypeErrorMsg, stLoginCex) := by
  rfl

def userLockCex : User := ⟨7, "a@b.com", "argon2hash", true, 0, none⟩

/-- A store in which the email a@b.com has 9 recorded failures with half the
one-hour failure window remaining. -/
def stLockCex : AuthSt := ⟨[("failed_attempts:a@b.com", ⟨"9", some 1800⟩)], [userLockCex]⟩

/-- C3 (code bug): the 10th consecutive wrong-password attempt never reaches
the failure counter or the lockout writes — the endpoint raises TypeError at
the await of get_rate_limiter and the state (including the durable
locked_until and the KV lockout flag) is unchanged, so no 403 lockout
response is produced. -/
theorem login_lockout_attempt_typeerror :
    login envLoginCex stLockCex "a@b.com" "wrongpassword" "9.9.9.9"
      = (LoginResp.pyError awaitTypeErrorMsg, stLockCex) := by
  rfl

/-- The check suite itself (were the rate limiter value available) does
implement the intended lockout: at the same store with 9 recorded failures a
wrong-password attempt returns the 403 lockout response — not the 401
credentials response — sets the durable locked_until to now + 15 minutes and
writes the KV flag account_locked:7 with a 900s TTL. -/
theorem login_checks_lockout_intended :
    (login_checks envLoginCex stLockCex "a@b.com" "wrongpassword" "9.9.9.9").1
      = LoginResp.http 403 "Account locked due to too many failed attempts"
    ∧ ((login_checks envLoginCex stLockCex "a@b.com" "wrongpassword" "9.9.9.9").2.db.map
        User.locked_until) = [some 1700000900]
    ∧ kvTtl (login_checks envLoginCex stLockCex "a@b.com" "wrongpassword" "9.9.9.9").2.kv
        "account_locked:7" = some 900 := by
  decide

-- Splitting behaviour of the token at its first dot.

theorem splitFirstDot_append (n sig : List Char) (h : '.' ∉ n) :
    splitFirstDot (n ++ '.' :: sig) = some (n, sig) := by
  induction n with
  | nil => simp [splitFirstDot]
  | cons c cs ih =>
    simp only [List.mem_cons, not_or] at h
    have hc : ¬ c = '.' := fun e => h.1 e.symm
    simp [splitFirstDot, hc, ih h.2]

theorem splitFirstDot_none (t : List Char) (h : '.' ∉ t) :
    splitFirstDot t = none := by
  induction t with
  | nil => simp [splitFirstDot]
  | cons c cs ih =>
    simp only [List.mem_cons, not_or] at h
    have hc : ¬ c = '.' := fun e => h.1 e.symm
    simp [splitFirstDot, hc, ih h.2]

theorem str_append_right_cancel {s s' t : String} (h : s ++ t = s' ++ t) : s = s' := by
  have hd := congrArg String.data h
  rw [String.data_append, String.data_append] at hd
  exact String.ext (List.append_cancel_right hd)

/-- C6: a token minted for a session id and secret verifies against exactly
that pair: the round trip yields true; against a different session id or a
different secret (assuming the keyed hash H is injective, the idealisation of
collision resistance) verification yields false; and any token without a dot
separator yields false rather than an error. -/
theorem csrf_token_verify_bound (H : String → String → String) (s k s' k' n : String)
    (hInj : ∀ a b a' b', H a b = H a' b' → a = a' ∧ b = b')
    (hnoDot : '.' ∉ n.data)
    (hne : s' ≠ s ∨ k' ≠ k) :
    verify_csrf_token H (generate_csrf_token H s k n) s k = true
    ∧ verify_csrf_token H (generate_csrf_token H s k n) s' k' = false
    ∧ ∀ t : String, '.' ∉ t.data → verify_csrf_token H t s' k' = false := by
  have hdata : (generate_csrf_token H s k n).data
      = n.data ++ '.' :: (H k (s ++ ":" ++ n)).data := by
    simp [generate_csrf_token, String.data_append]
  have hsplit : splitFirstDot (generate_csrf_token H s k n).data
      = some (n.data, (H k (s ++ ":" ++ n)).data) := by
    rw [hdata]
    exact splitFirstDot_append _ _ hnoDot
  refine ⟨?_, ?_, ?_⟩
  · simp [verify_csrf_token, hsplit]
  · have hdiff : H k (s ++ ":" ++ n) ≠ H k' (s' ++ ":" ++ n) := by
      intro he
      obtain ⟨hk, hm⟩ := hInj _ _ _ _ he
      have hs : s = s' :=
        str_append_right_cancel (str_append_right_cancel hm)
      cases hne with
      | inl h2 => exact h2 hs.symm
      | inr h2 => exact h2 hk.symm
    simp [verify_csrf_token, hsplit]
    exact hdiff
  · intro t ht
    simp [verify_csrf_token, splitFirstDot_none t.data ht]

/-!
A concrete injective keyed hash used to instantiate the abstract H in
witnesses: each input character is tagged with a leading marker so that the
separator between the two arguments can always be recovered.
-/

def escList (l : List Char) : List Char := l.flatMap (fun c => ['E', c])

def hmacModel (secret message : String) : String :=
  String.mk (escList secret.data ++ 'S' :: escList message.data)

theorem escList_inj (a : List Char) : ∀ b, escList a = escList b → a = b := by
  induction a with
  | nil =>
    intro b h
    cases b with
    | nil => rfl
    | cons d ds => simp [escList] at h
  | cons c cs ih =>
    intro b h
    cases b with
    | nil => simp [escList] at h
    | cons d ds =>
      simp [escList] at h
      rw [h.1, ih ds h.2]

theorem escList_sep_inj (a : List Char) :
    ∀ (b x y : List Char), escList a ++ 'S' :: x = escList b ++ 'S' :: y →
      a = b ∧ x = y := by
  induction a with
  | nil =>
    intro b x y h
    cases b with
    | nil =>
      simp [escList] at h
      exact ⟨rfl, h⟩
    | cons d ds =>
      simp [escList] at h
  | cons c cs ih =>
    intro b x y h
    cases b with
    | nil =>
      simp [escList] at h
    | cons d ds =>
      simp [escList] at h
      obtain ⟨hcd, hrest⟩ := h
      obtain ⟨h1, h2⟩ := ih ds x y hrest
      exact ⟨by rw [hcd, h1], h2⟩

theorem hmacModel_inj (a b a' b' : String)
    (h : hmacModel a b = hmacModel a' b') : a = a' ∧ b = b' := by
  have hd := congrArg String.data h
  simp only [hmacModel] at hd
  obtain ⟨h1, h2⟩ := escList_sep_inj a.data a'.data (escList b.data) (escList b'.data) hd
  exact ⟨String.ext h1, String.ext (escList_inj b.data b'.data h2)⟩

/-- Witness for the C6 theorem: a token minted with the concrete injective
keyed hash for session sessA verifies for sessA, fails for sessB, and a
dotless token fails without error. -/
theorem csrf_token_verify_bound_witness :
    verify_csrf_token hmacModel (generate_csrf_token hmacModel "sessA" "key1" "0a0b")
      "sessA" "key1" = true
    ∧ verify_csrf_token hmacModel (generate_csrf_token hmacModel "sessA" "key1" "0a0b")
      "sessB" "key1" = false
    ∧ verify_csrf_token hmacModel "deadbeef" "sessB" "key1" = false := by
  have h := csrf_token_verify_bound hmacModel "sessA" "key1" "sessB" "key1" "0a0b"
    hmacModel_inj (by decide) (Or.inl (by decide))
  exact ⟨h.1, h.2.1, h.2.2 "deadbeef" (by decide)⟩

/-!
## CSRF gate middleware (src/main.py)
-/

/-- Python truthiness of an optional cookie/header string: missing or empty
is falsy. -/
def pyTruthy : Option String → Bool
  | none => false
  | some s => !s.isEmpty

def CSRF_EXEMPT_PATHS : List String :=
  ["/auth/login", "/auth/register", "/health", "/api/webhooks"]

/-- csrf_middleware: for state-changing verbs with a truthy session cookie on
a non-exempt path, require both the csrf_token cookie and the X-CSRF-Token
header to be present and non-empty, then verify only the header token's
signature against the session id; some (status, detail) is the blocking
response, none lets the request continue to the handler. -/
def csrf_middleware (H : String → String → String) (secret method path : String)
    (cookie_session cookie_csrf header_token : Option String) : Option (Nat × String) :=
  if method = "POST" ∨ method = "PUT" ∨ method = "PATCH" ∨ method = "DELETE" then
    match cookie_session with
    | none => none
    | some sid =>
      if sid.isEmpty then none
      else if CSRF_EXEMPT_PATHS.contains path then none
      else if pyTruthy header_token = false ∨ pyTruthy cookie_csrf = false then
        some (403, "CSRF token missing")
      else if verify_csrf_token H (header_token.getD "") sid secret then none
      else some (403, "CSRF validation failed")
  else none

/-- C10: the gate never reads the csrf_token cookie's value beyond its
truthiness — swapping one non-empty cookie value for another leaves the
outcome unchanged — and whenever the header token's signature verifies
against the session id, the request passes with any non-empty cookie. -/
theorem csrf_gate_header_only (H : String → String → String)
    (secret method path sid c1 c2 h : String)
    (hc1 : c1.isEmpty = false) (hc2 : c2.isEmpty = false) (hh : h.isEmpty = false) :
    csrf_middleware H secret method path (some sid) (some c1) (some h)
      = csrf_middleware H secret method path (some sid) (some c2) (some h)
    ∧ (verify_csrf_token H h sid secret = true →
        csrf_middleware H secret method path (some sid) (some c1) (some h) = none) := by
  constructor
  · simp [csrf_middleware, pyTruthy, hc1, hc2]
  · intro hv
    simp [csrf_middleware, pyTruthy, hc1, hh, hv]

/-- Witness for the C10 theorem: with the concrete keyed hash and a validly
minted header token, two different non-empty cookie values give the same
outcome and the gate passes. -/
theorem csrf_gate_header_only_witness :
    csrf_middleware hmacModel "K" "POST" "/api/task" (some "S")
      (some "tok1") (some (generate_csrf_token hmacModel "S" "K" "ab"))
      = csrf_middleware hmacModel "K" "POST" "/api/task" (some "S")
      (some "completely-different") (some (generate_csrf_token hmacModel "S" "K" "ab"))
    ∧ csrf_middleware hmacModel "K" "POST" "/api/task" (some "S")
      (some "tok1") (some (generate_csrf_token hmacModel "S" "K" "ab")) = none := by
  have h := csrf_gate_header_only hmacModel "K" "POST" "/api/task" "S" "tok1"
    "completely-different" (generate_csrf_token hmacModel "S" "K" "ab")
    (by decide) (by decide) (by decide)
  exact ⟨h.1, h.2 (by decide)⟩

/-!
## Failure-injected store semantics (src/auth/redis_utils.py,
src/auth/sessions.py, src/auth/rate_limit.py)

To reason about the retry/backoff policy the store operations run over a
state carrying a fault oracle: each low-level Redis call consumes one flag
(true = the HTTP call raises a transient exception, false = it behaves like
the pure model; an exhausted oracle means no fault).  calls counts the
low-level store calls issued.  Delays are in milliseconds (the source's 0.5s
initial delay, 10s cap and base 2.0 multiplier become 500, 10000 and 2).
-/

/-- Errors of the failure-injected semantics: netFail is the generic
exception raised by the underlying HTTP call, connError is the
RedisConnectionError raised by exponential_backoff_retry once its attempts
are exhausted. -/
inductive RErr
  | netFail
  | connError
deriving Repr, DecidableEq

/-- Store state with fault oracle and call counter. -/
structure FSt where
  kv : KV
  faults : List Bool
  calls : Nat
deriving Repr, DecidableEq

/-- Consume the next fault flag (no flag left = no fault). -/
def popFault : FSt → Bool × FSt
  | ⟨kv, [], c⟩ => (false, ⟨kv, [], c + 1⟩)
  | ⟨kv, f :: rest, c⟩ => (f, ⟨kv, rest, c + 1⟩)

def fkvGet (st : FSt) (k : String) : Except RErr (Option String) × FSt :=
  let p := popFault st
  if p.1 then (.error .netFail, p.2) else (.ok (kvGet p.2.kv k), p.2)

def fkvSetex (st : FSt) (k : String) (t : Nat) (v : String) : Except RErr Unit × FSt :=
  let p := popFault st
  if p.1 then (.error .netFail, p.2)
  else (.ok (), { p.2 with kv := kvSetex p.2.kv k t v })

def fkvDelete (st : FSt) (k : String) : Except RErr Unit × FSt :=
  let p := popFault st
  if p.1 then (.error .netFail, p.2)
  else (.ok (), { p.2 with kv := kvDelete p.2.kv k })

def fkvExpire (st : FSt) (k : String) (t : Nat) : Except RErr Int × FSt :=
  let p := popFault st
  if p.1 then (.error .netFail, p.2)
  else
    let r := kvExpire p.2.kv k t
    (.ok r.1, { p.2 with kv := r.2 })

def fkvIncr (st : FSt) (k : String) : Except RErr Int × FSt :=
  let p := popFault st
  if p.1 then (.error .netFail, p.2)
  else
    let r := kvIncr p.2.kv k
    (.ok r.1, { p.2 with kv := r.2 })

/-- The attempt loop of exponential_backoff_retry: fuel is the number of
attempts still allowed; a failing attempt sleeps the current delay and
doubles it (capped) while further attempts remain, and the exhaustion of all
attempts raises RedisConnectionError.  The third component records the
sleeps performed. -/
def retryGo (func : FSt → Except RErr α × FSt) :
    Nat → Nat → Nat → Nat → FSt → List Nat → Except RErr α × FSt × List Nat
  | 0, _, _, _, st, slept => (.error .connError, st, slept)
  | n + 1, delay, maxD, base, st, slept =>
    match func st with
    | (.ok a, st1) => (.ok a, st1, slept)
    | (.error _, st1) =>
      if n = 0 then (.error .connError, st1, slept)
      else retryGo func n (min (delay * base) maxD) maxD base st1 (slept ++ [delay])

/-- exponential_backoff_retry (src/auth/redis_utils.py): up to
max_retries + 1 attempts of func with exponential backoff between failures;
raises RedisConnectionError when every attempt failed. -/
def exponential_backoff_retry (func : FSt → Except RErr α × FSt)
    (max_retries : Nat) (initial_delay max_delay exponential_base : Nat)
    (st : FSt) : Except RErr α × FSt × List Nat :=
  retryGo func (max_retries + 1) initial_delay max_delay exponential_base st []

/-- UpstashSessionManager._get_with_retry: redis.get wrapped with
redis_retry(max_retries=3, initial_delay=0.5) (max delay 10s, base 2.0). -/
def get_with_retry (st : FSt) (key : String) : Except RErr (Option String) × FSt × List Nat :=
  exponential_backoff_retry (fun s => fkvGet s key) 3 500 10000 2 st

/-- UpstashSessionManager._setex_with_retry. -/
def setex_with_retry (st : FSt) (key : String) (ttl : Nat) (v : String) :
    Except RErr Unit × FSt × List Nat :=
  exponential_backoff_retry (fun s => fkvSetex s key ttl v) 3 500 10000 2 st

/-- UpstashSessionManager._delete_with_retry. -/
def delete_with_retry (st : FSt) (key : String) : Except RErr Unit × FSt × List Nat :=
  exponential_backoff_retry (fun s => fkvDelete s key) 3 500 10000 2 st

/-- UpstashSessionManager._expire_with_retry. -/
def expire_with_retry (st : FSt) (key : String) (ttl : Nat) :
    Except RErr Int × FSt × List Nat :=
  exponential_backoff_retry (fun s => fkvExpire s key ttl) 3 500 10000 2 st

/-- get_session under failure injection: the try/except around
_get_with_retry catches every exception — including the
RedisConnectionError left after exhausted retries — and returns None. -/
def get_session_f (st : FSt) (sid : String) : Option SessionData × FSt :=
  match get_with_retry st ("session:" ++ sid) with
  | (.error _, st1, _) => (none, st1)
  | (.ok none, st1, _) => (none, st1)
  | (.ok (some s), st1, _) => (if s.isEmpty then none else sessionParse s, st1)

/-- delete_session under failure injection: re-raises the error left by
_delete_with_retry. -/
def delete_session_f (st : FSt) (sid : String) : Except RErr Unit × FSt :=
  match delete_with_retry st ("session:" ++ sid) with
  | (.error e, st1, _) => (.error e, st1)
  | (.ok _, st1, _) => (.ok (), st1)

/-- refresh_session under failure injection: an exception is caught and
reported as false. -/
def refresh_session_f (ttl : Nat) (st : FSt) (sid : String) : Bool × FSt :=
  match expire_with_retry st ("session:" ++ sid) ttl with
  | (.error _, st1, _) => (false, st1)
  | (.ok r, st1, _) => (r != 0, st1)

/-- get_current_user under failure injection. -/
def get_current_user_f (st : FSt) (db : Db) (session_id : Option String) :
    Except (Nat × String) CurrentUser × FSt :=
  match session_id with
  | none => (.error (401, "Not authenticated"), st)
  | some sid =>
    if sid.isEmpty then (.error (401, "Not authenticated"), st)
    else
      match get_session_f st sid with
      | (none, st1) => (.error (401, "Session expired"), st1)
      | (some data, st1) =>
        if data.user_id = 0 then (.error (401, "Invalid session"), st1)
        else
          let st2 := (refresh_session_f SESSION_TTL_DEFAULT st1 sid).2
          match queries.get_user_by_id db data.user_id with
          | none => (.error (401, "User not found"), st2)
          | some u =>
            if !u.is_active then (.error (403, "User account is inactive"), st2)
            else (.ok ⟨u.id, u.email⟩, st2)

/-- check_ip_rate_limit under failure injection: the Redis calls are issued
directly, with no retry wrapper, so any exception propagates at once. -/
def check_ip_rate_limit_f (st : FSt) (ip : String) : Except RErr Bool × FSt :=
  let key := "ratelimit:ip:" ++ ip ++ ":1m"
  match fkvIncr st key with
  | (.error e, st1) => (.error e, st1)
  | (.ok count, st1) =>
    if count = 1 then
      match fkvExpire st1 key 60 with
      | (.error e, st2) => (.error e, st2)
      | (.ok _, st2) => (.ok (count > LOGIN_ATTEMPTS_PER_MINUTE), st2)
    else (.ok (count > LOGIN_ATTEMPTS_PER_MINUTE), st1)

/-- check_email_rate_limit under failure injection (no retry wrapper). -/
def check_email_rate_limit_f (st : FSt) (email : String) : Except RErr Bool × FSt :=
  let key := "ratelimit:email:" ++ email ++ ":5m"
  match fkvIncr st key with
  | (.error e, st1) => (.error e, st1)
  | (.ok count, st1) =>
    if count = 1 then
      match fkvExpire st1 key 300 with
      | (.error e, st2) => (.error e, st2)
      | (.ok _, st2) => (.ok (count > LOGIN_ATTEMPTS_PER_5_MIN), st2)
    else (.ok (count > LOGIN_ATTEMPTS_PER_5_MIN), st1)

/-- increment_failed_attempts under failure injection (no retry wrapper). -/
def increment_failed_attempts_f (st : FSt) (email : String) : Except RErr Int × FSt :=
  let key := "failed_attempts:" ++ email
  match fkvIncr st key with
  | (.error e, st1) => (.error e, st1)
  | (.ok count, st1) =>
    match fkvExpire st1 key 3600 with
    | (.error e, st2) => (.error e, st2)
    | (.ok _, st2) => (.ok count, st2)

/-- The app-level generic exception handler (src/main.py): any uncaught
exception becomes a generic 500 response. -/
def generic_exception_handler (_e : RErr) : Nat × String :=
  (500, "Internal server error")

theorem popFault_calls (st : FSt) : (popFault st).2.calls = st.calls + 1 := by
  cases st with
  | mk kv faults c => cases faults <;> rfl

theorem fkvGet_calls (k : String) (s : FSt) : (fkvGet s k).2.calls = s.calls + 1 := by
  unfold fkvGet
  by_cases h : (popFault s).1 <;> simp [h, popFault_calls]

theorem retryGo_calls {α : Type} (func : FSt → Except RErr α × FSt)
    (hf : ∀ s, ((func s).2).calls = s.calls + 1) :
    ∀ (n d mx b : Nat) (st : FSt) (slept : List Nat),
      (retryGo func n d mx b st slept).2.1.calls ≤ st.calls + n := by
  intro n
  induction n with
  | zero =>
    intro d mx b st slept
    simp [retryGo]
  | succ m ih =>
    intro d mx b st slept
    rcases hfs : func st with ⟨res, st1⟩
    have h1 : st1.calls = st.calls + 1 := by
      have h2 := hf st
      rw [hfs] at h2
      exact h2
    cases res with
    | ok a =>
      simp only [retryGo, hfs]
      omega
    | error e =>
      by_cases hm : m = 0
      · subst hm
        simp only [retryGo, hfs, if_pos]
        simp
        omega
      · have h2 := ih (min (d * b) mx) mx b st1 (slept ++ [d])
        simp only [retryGo, hfs]
        simp only [hm, if_false, ite_false]
        omega

/-- C8 (counterexample): under a single transient store failure followed by
recovery, the Session Manager's wrapped get succeeds after one retry, while
the Rate Limiter's IP-counter check — issued at the same state — fails
immediately with the raw error; so not every KV operation used by the two
components is wrapped with the bounded-retry policy. -/
theorem rate_limiter_unwrapped_cex :
    (get_with_retry ⟨[], [true, false], 0⟩ "session:abc").1 = Except.ok none
    ∧ (check_ip_rate_limit_f ⟨[], [true, false], 0⟩ "1.2.3.4").1
        = Except.error RErr.netFail :=
  ⟨rfl, rfl⟩

/-- C8 (amended): the Session Manager store operations are wrapped with the
bounded-retry policy — at most 3 retries (4 attempts), 500ms initial delay,
multiplier 2 capped at 10000ms, with exhaustion raising the distinct
RedisConnectionError — but the Rate Limiter operations call the store
directly: a single transient failure propagates immediately after one call. -/
theorem retry_policy_amended (kv : KV) (c : Nat) (key ip email : String) :
    get_with_retry ⟨kv, [true, false], c⟩ key
      = (Except.ok (kvGet kv key), ⟨kv, [], c + 2⟩, [500])
    ∧ (∀ fs : List Bool, get_with_retry ⟨kv, true :: true :: true :: true :: fs, c⟩ key
        = (Except.error RErr.connError, ⟨kv, fs, c + 4⟩, [500, 1000, 2000]))
    ∧ RErr.connError ≠ RErr.netFail
    ∧ (∀ st : FSt, (get_with_retry st key).2.1.calls ≤ st.calls + 4)
    ∧ (∀ fs : List Bool,
        check_ip_rate_limit_f ⟨kv, true :: fs, c⟩ ip
          = (Except.error RErr.netFail, ⟨kv, fs, c + 1⟩)
        ∧ check_email_rate_limit_f ⟨kv, true :: fs, c⟩ email
          = (Except.error RErr.netFail, ⟨kv, fs, c + 1⟩)
        ∧ increment_failed_attempts_f ⟨kv, true :: fs, c⟩ email
          = (Except.error RErr.netFail, ⟨kv, fs, c + 1⟩)) := by
  refine ⟨rfl, fun fs => rfl, by decide, ?_, fun fs => ⟨rfl, rfl, rfl⟩⟩
  intro st
  exact retryGo_calls _ (fkvGet_calls key) 4 500 10000 2 st []

/-- C9 (counterexample): an authenticated request whose session read fails
with a connection error on every attempt resolves to 401 Session expired —
get_session catches the RedisConnectionError and reports the session as
absent — not to a 500 response. -/
theorem get_session_conn_error_401_cex :
    get_current_user_f ⟨[], [true, true, true, true], 0⟩ [] (some "s1")
      = (Except.error (401, "Session expired"), ⟨[], [], 4⟩) := by
  rfl

/-- C9 (amended): when the store is unreachable after all retries, the
failure surfaces differently per operation: get_session swallows the
RedisConnectionError and returns None, so an authenticated request resolves
to 401 Session expired; delete_session re-raises RedisConnectionError, which
the app-level generic handler turns into a 500 with no backend detail. -/
theorem store_failure_surface_amended (kv : KV) (c : Nat) (db : Db) (sid : String)
    (hsid : sid.isEmpty = false) :
    get_current_user_f ⟨kv, [true, true, true, true], c⟩ db (some sid)
      = (Except.error (401, "Session expired"), ⟨kv, [], c + 4⟩)
    ∧ (∀ fs : List Bool,
        (delete_session_f ⟨kv, true :: true :: true :: true :: fs, c⟩ sid).1
          = Except.error RErr.connError)
    ∧ generic_exception_handler RErr.connError = (500, "Internal server error") := by
  refine ⟨?_, fun fs => rfl, rfl⟩
  simp only [get_current_user_f, hsid]
  rfl

/-- Witness for the amended C9 theorem at a concrete state. -/
theorem store_failure_surface_amended_witness :
    get_current_user_f ⟨[("k0", ⟨"v", none⟩)], [true, true, true, true], 0⟩ [] (some "sW")
      = (Except.error (401, "Session expired"), ⟨[("k0", ⟨"v", none⟩)], [], 4⟩)
    ∧ (delete_session_f ⟨[("k0", ⟨"v", none⟩)], [true, true, true, true], 0⟩ "sW").1
        = Except.error RErr.connError
    ∧ generic_exception_handler RErr.connError = (500, "Internal server error") := by
  have h := store_failure_surface_amended [("k0", ⟨"v", none⟩)] 0 [] "sW" (by decide)
  exact ⟨h.1, h.2.1 [], h.2.2⟩
